import Mathlib

/-!
Shallow embedding of the PostgreSQL default-privileges reconciler
(`pkg/controller/postgresql/defaultprivileges/reconciler.go` together with
the parameter types in `apis/postgresql/v1alpha1/default_privleages_types.go`).

Pure Go functions become Lean functions.  Database interaction is modelled
by an oracle (`DBOracle`) answering the two handles' `Scan` / `ExecTx`
calls, and every verb additionally returns the list of database calls it
issued, each tagged with the `context` value the Go code passed to the
handle.  A Go nil-pointer dereference is modelled as the distinguished
outcome `GoResult.nilDeref`.
-/

namespace ProviderSQL

/-- The double-quote character, used by `pq.QuoteIdentifier`. -/
def dq : Char := Char.ofNat 34

/-- The single-quote character, appearing inside SQL literals. -/
def sq : String := String.singleton (Char.ofNat 39)

/-- Embedding of `pq.QuoteIdentifier`: truncate at the first NUL rune,
double every embedded double quote, and wrap the result in double
quotes. -/
def quoteIdentifier (name : String) : String :=
  let truncated := String.mk (name.data.takeWhile (fun c => c ≠ Char.ofNat 0))
  let escaped := String.mk (truncated.data.flatMap (fun c => if c = dq then [dq, dq] else [c]))
  String.singleton dq ++ escaped ++ String.singleton dq

/-- A positional SQL parameter (`interface{}` values passed to a query:
the reconciler only ever passes strings and ints). -/
inductive Param where
  | str (s : String)
  | int (n : Int)
  deriving DecidableEq, Repr

/-- Embedding of `xsql.Query`: a statement string plus positional
parameters. -/
structure Query where
  string : String
  parameters : List Param
  deriving DecidableEq, Repr

/-- Embedding of a Go error value: either a leaf message
(`errors.New` / the cause of `fmt.Errorf`) or a wrapped error with a
stage-naming message (`errors.Wrap` / `fmt.Errorf` with `%w`). -/
inductive GoErr where
  | msg (s : String)
  | wrap (inner : GoErr) (s : String)
  deriving DecidableEq, Repr

/-- Outcome of running a piece of Go code: a value, an error value, or a
runtime panic from dereferencing a nil pointer (`field` names the nil
field being dereferenced). -/
inductive GoResult (α : Type) where
  | ok (a : α)
  | err (e : GoErr)
  | nilDeref (field : String)
  deriving DecidableEq, Repr

/- Error message constants from the reconciler, verbatim (some contain
double or trailing spaces in the source). -/

def errNot : String := "managed resource is not a  custom resource"

def errSelectDefaultPerms : String := "cannot select default permissions "

def errCreateDefaultPermsQuery : String := "cannot create default permissions query"

def errSelectRoleId : String := "cannot select role id "

def errCreateDefaultPerms : String := "cannot create default permissions "

def errRevokeDefaultPerms : String := "cannot revoke default permissions "

def errRevokeDefaultPermsQuery : String := "cannot create revoke default permissions query"

def errNoRole : String := "role not passed or could not be resolved"

def errNoOwner : String := "owner not passed or could not be resolved"

def errNoSchema : String := "schema not passed or could not be resolved"

def errNoPrivileges : String := "privileges not passed"

/-- Embedding of `v1alpha1.DefaultPrivilegeParameters`.  Go pointer
fields (`*string`) and the nilable `Privileges` slice become `Option`.
The `OwnerRef`/`OwnerSelector`/`RoleRef`/`RoleSelector`/`DatabaseRef`/
`DatabaseSelector` fields are inputs to the external reference resolver
only; the reconciler's verbs never read them, so they are omitted. -/
structure DefaultPrivilegeParameters where
  privileges : Option (List String)
  role : Option String
  owner : Option String
  schema : Option String
  database : Option String
  deriving DecidableEq, Repr

/-- The Ready-type status conditions the reconciler sets via
`SetConditions` (`xpv1.Creating()`, `xpv1.Deleting()`,
`xpv1.Available()`); each replaces the previous Ready condition. -/
inductive Condition where
  | creating
  | deleting
  | available
  deriving DecidableEq, Repr

/-- Embedding of a `v1alpha1.DefaultPrivilege` managed resource: its
`Spec.ForProvider` parameters plus the current Ready-type status
condition (none if no condition has been set yet). -/
structure DefaultPrivilege where
  forProvider : DefaultPrivilegeParameters
  ready : Option Condition
  deriving DecidableEq, Repr

/-- `cr.SetConditions(c)` for a Ready-type condition `c`: replaces the
stored Ready condition. -/
def setReady (cr : DefaultPrivilege) (c : Condition) : DefaultPrivilege :=
  { cr with ready := some c }

/-- A `resource.Managed` value handed to a verb: either a
`*v1alpha1.DefaultPrivilege` or some other managed-resource kind (the
type assertion `mg.(*v1alpha1.DefaultPrivilege)` fails on the latter). -/
inductive Managed where
  | defaultPrivilege (cr : DefaultPrivilege)
  | otherKind (name : String)
  deriving DecidableEq, Repr

/-- A Go `context.Context` value: either `context.Background()` or the
cancellable context passed into the verb by the caller (identified by a
number so distinct caller contexts can be told apart). -/
inductive Ctx where
  | background
  | caller (id : Nat)
  deriving DecidableEq, Repr

/-- A database call issued by the reconciler, tagged with the handle it
went to (`db` is the provider-default-database handle, `dbDatabase` the
target-database handle) and the context value passed to the handle. -/
inductive DBCall where
  | scanDb (ctx : Ctx) (q : Query)
  | scanDbDatabase (ctx : Ctx) (q : Query)
  | execTx (ctx : Ctx) (qs : List Query)
  deriving DecidableEq, Repr

/-- The context value a database call was issued with. -/
def callCtxOf : DBCall → Ctx
  | .scanDb c _ => c
  | .scanDbDatabase c _ => c
  | .execTx c _ => c

/-- Oracle modelling the two database handles' responses:
`scanOid` answers `db.Scan` into an `*int` (role-OID lookup),
`scanDbBool` answers `db.Scan` into a `*bool` (database-existence probe),
`scanGrantBool` answers `dbDatabase.Scan` into a `*bool` (grant-existence
probe), and `execTxRes` is the outcome of `dbDatabase.ExecTx` (none =
success). -/
structure DBOracle where
  scanOid : Query → Except GoErr Int
  scanDbBool : Query → Except GoErr Bool
  scanGrantBool : Query → Except GoErr Bool
  execTxRes : List Query → Option GoErr

/-- Embedding of `managed.ExternalObservation` (zero value: all false). -/
structure ExternalObservation where
  resourceExists : Bool := false
  resourceUpToDate : Bool := false
  resourceLateInitialized : Bool := false
  deriving DecidableEq, Repr

/-- Embedding of `managed.ExternalCreation` (an empty result struct). -/
structure ExternalCreation where
  deriving DecidableEq, Repr

/-- Embedding of `managed.ExternalUpdate` (an empty result struct). -/
structure ExternalUpdate where
  deriving DecidableEq, Repr

deriving instance DecidableEq for Except

/-- Result of running one verb: the Go return value, the managed
resource afterwards (Go mutates it in place through the pointer), and
the database calls the verb issued, in order. -/
structure VerbOut (α : Type) where
  res : GoResult α
  mg : Managed
  calls : List DBCall

/-- The query built by `GetRoleOID` (raw Go string literal ends with a
newline). -/
def getRoleOIDQuery (roleName : String) : Query :=
  ⟨"SELECT oid FROM pg_roles WHERE rolname = $1;\n", [.str roleName]⟩

/-- The query built by `DataBaseExits` (raw Go string literal ends with
a newline). -/
def databaseExistsQuery (dbName : String) : Query :=
  ⟨"SELECT EXISTS (SELECT datname FROM pg_catalog.pg_database WHERE datname = $1);\n", [.str dbName]⟩

/-- The grant-existence SQL text built by `selectQuery`, verbatim
(including the leading newline and tab whitespace of the Go raw string
literal).  It filters `defaclobjtype` to the table class and the
namespace to the fixed name `public`; the schema parameter of the
declared object never appears. -/
def selectQueryString : String :=
  "\n\tSELECT EXISTS (\n\tSELECT 1 FROM (\n\t\tSELECT defaclnamespace, (aclexplode(defaclacl)).* FROM pg_default_acl\n \t\tWHERE defaclobjtype = " ++
  sq ++ "r" ++ sq ++
  "\n\t) AS t (namespace, grantor_oid, grantee_oid, prtype, grantable)\n\tJOIN pg_namespace ON pg_namespace.oid = namespace\n\tWHERE grantee_oid = $1 AND nspname = " ++
  sq ++ "public" ++ sq ++
  " AND grantor_oid = $2\n   \t);\n\t"

/-- Embedding of `selectQuery`: fills in the grant-existence query.  Its
parameters are the grantee role OID (`$1`) and the grantor owner OID
(`$2`); it takes no schema argument. -/
def selectQuery (ownerID roleID : Int) : Query :=
  ⟨selectQueryString, [.int roleID, .int ownerID]⟩

/-- Embedding of `(c *external).GetRoleOID`: scans the role-OID query on
the `db` handle, wrapping a failure as
`could not find oid for role <name>: <err>`.  The Go method takes no
context parameter and passes `context.Background()` to `Scan`; the call
it issues is returned alongside the result. -/
def GetRoleOID (o : DBOracle) (roleName : String) : Except GoErr Int × List DBCall :=
  let q := getRoleOIDQuery roleName
  ((o.scanOid q).mapError (fun e => .wrap e ("could not find oid for role " ++ roleName)),
   [DBCall.scanDb Ctx.background q])

/-- Embedding of `(c *external).DataBaseExits`: scans the
database-existence query on the `db` handle, wrapping a failure as
`could not find database <name>: <err>`.  Although the Go method accepts
the verb's context, it passes `context.Background()` to `Scan`; the
call it issues is returned alongside the result. -/
def DataBaseExits (o : DBOracle) (_ctx : Ctx) (dbName : String) : Except GoErr Bool × List DBCall :=
  let q := databaseExistsQuery dbName
  ((o.scanDbBool q).mapError (fun e => .wrap e ("could not find database " ++ dbName)),
   [DBCall.scanDb Ctx.background q])

/-- Embedding of `createQueries`: validates role, schema, privileges and
owner in that order, then appends the three-statement install sequence
(`SET ROLE`, revoke-all, grant), with identifiers quoted by
`pq.QuoteIdentifier` and the privilege list joined by commas.  On error
no statement is built. -/
def createQueries (gp : DefaultPrivilegeParameters) : Except GoErr (List Query) :=
  match gp.role with
  | none => .error (.msg errNoRole)
  | some role =>
  match gp.schema with
  | none => .error (.msg errNoSchema)
  | some schema =>
  match gp.privileges with
  | none => .error (.msg errNoPrivileges)
  | some privs =>
  match gp.owner with
  | none => .error (.msg errNoOwner)
  | some owner =>
    let ro := quoteIdentifier role
    let schemaQ := quoteIdentifier schema
    let p := String.intercalate "," privs
    if p.length = 0 then .error (.msg errNoPrivileges)
    else
      .ok [
        ⟨"SET ROLE " ++ quoteIdentifier owner ++ " ", []⟩,
        ⟨"ALTER DEFAULT PRIVILEGES FOR ROLE " ++ quoteIdentifier owner ++ " IN SCHEMA " ++
          quoteIdentifier schema ++ " REVOKE ALL ON TABLES FROM " ++ ro, []⟩,
        ⟨"ALTER DEFAULT PRIVILEGES FOR ROLE " ++ quoteIdentifier owner ++ " IN SCHEMA " ++
          schemaQ ++ "  GRANT  " ++ p ++ " ON TABLES TO " ++ ro, []⟩]

/-- Embedding of `deleteQuery`: validates role and schema only, then
dereferences `gp.Owner` with no nil check (a nil owner is therefore a
runtime panic, not a validation error) and appends the two-statement
revoke sequence. -/
def deleteQuery (gp : DefaultPrivilegeParameters) : GoResult (List Query) :=
  match gp.role with
  | none => .err (.msg errNoRole)
  | some role =>
  match gp.schema with
  | none => .err (.msg errNoSchema)
  | some schema =>
  match gp.owner with
  | none => .nilDeref "owner"
  | some owner =>
    let ro := quoteIdentifier role
    .ok [
      ⟨"SET ROLE " ++ quoteIdentifier owner ++ " ", []⟩,
      ⟨"ALTER DEFAULT PRIVILEGES FOR ROLE " ++ quoteIdentifier owner ++ "  IN SCHEMA " ++
        quoteIdentifier schema ++ " REVOKE ALL ON TABLES FROM " ++ ro, []⟩]

/-- Embedding of `(c *external).Observe`: type-checks the managed
resource, requires `Role` to be set, resolves the role OID and then the
owner OID (dereferencing `gp.Owner` with no nil check), runs the
grant-existence query on the target-database handle with the verb's
context, and maps the boolean to the observation; on `true` it sets the
Available condition first. -/
def Observe (o : DBOracle) (ctx : Ctx) (mg : Managed) : VerbOut ExternalObservation :=
  match mg with
  | .otherKind s => ⟨.err (.msg errNot), .otherKind s, []⟩
  | .defaultPrivilege cr =>
    match cr.forProvider.role with
    | none => ⟨.err (.msg errNoRole), .defaultPrivilege cr, []⟩
    | some role =>
      match (GetRoleOID o role).1 with
      | .error e =>
        ⟨.err (.wrap e errSelectRoleId), .defaultPrivilege cr, (GetRoleOID o role).2⟩
      | .ok roleId =>
        match cr.forProvider.owner with
        | none => ⟨.nilDeref "owner", .defaultPrivilege cr, (GetRoleOID o role).2⟩
        | some owner =>
          match (GetRoleOID o owner).1 with
          | .error e =>
            ⟨.err (.wrap e errSelectRoleId), .defaultPrivilege cr,
              (GetRoleOID o role).2 ++ (GetRoleOID o owner).2⟩
          | .ok ownerId =>
            let q := selectQuery ownerId roleId
            match o.scanGrantBool q with
            | .error e =>
              ⟨.err (.wrap e errSelectDefaultPerms), .defaultPrivilege cr,
                (GetRoleOID o role).2 ++ (GetRoleOID o owner).2 ++ [.scanDbDatabase ctx q]⟩
            | .ok b =>
              if b then
                ⟨.ok ⟨true, true, false⟩, .defaultPrivilege (setReady cr .available),
                  (GetRoleOID o role).2 ++ (GetRoleOID o owner).2 ++ [.scanDbDatabase ctx q]⟩
              else
                ⟨.ok ⟨false, false, false⟩, .defaultPrivilege cr,
                  (GetRoleOID o role).2 ++ (GetRoleOID o owner).2 ++ [.scanDbDatabase ctx q]⟩

/-- Embedding of `(c *external).Create`: type-checks the managed
resource, sets the Creating condition, builds the install sequence with
`createQueries` (wrapping a validation failure), and executes the whole
list in one `ExecTx` call on the target-database handle with the verb's
context.  On success `errors.Wrap(nil, errUnknown)` is nil, so the verb
returns no error. -/
def Create (o : DBOracle) (ctx : Ctx) (mg : Managed) : VerbOut ExternalCreation :=
  match mg with
  | .otherKind s => ⟨.err (.msg errNot), .otherKind s, []⟩
  | .defaultPrivilege cr =>
    let cr := setReady cr .creating
    match createQueries cr.forProvider with
    | .error e => ⟨.err (.wrap e errCreateDefaultPermsQuery), .defaultPrivilege cr, []⟩
    | .ok queries =>
      match o.execTxRes queries with
      | some e =>
        ⟨.err (.wrap e errCreateDefaultPerms), .defaultPrivilege cr, [.execTx ctx queries]⟩
      | none => ⟨.ok ⟨⟩, .defaultPrivilege cr, [.execTx ctx queries]⟩

/-- Embedding of `(c *external).Update`: returns an empty update result
and a nil error for every input, with no type check, no database call
and no mutation of the managed resource. -/
def Update (_ctx : Ctx) (mg : Managed) : VerbOut ExternalUpdate :=
  ⟨.ok ⟨⟩, mg, []⟩

/-- Embedding of `(c *external).Delete`: type-checks the managed
resource, sets the Deleting condition, dereferences
`cr.Spec.ForProvider.Database` with no nil check, probes database
existence; if the database is gone it returns success immediately,
otherwise it builds the revoke sequence and executes it in one `ExecTx`
call with the verb's context. -/
def Delete (o : DBOracle) (ctx : Ctx) (mg : Managed) : VerbOut Unit :=
  match mg with
  | .otherKind s => ⟨.err (.msg errNot), .otherKind s, []⟩
  | .defaultPrivilege cr =>
    let cr := setReady cr .deleting
    match cr.forProvider.database with
    | none => ⟨.nilDeref "database", .defaultPrivilege cr, []⟩
    | some dbName =>
      match (DataBaseExits o ctx dbName).1 with
      | .error e =>
        ⟨.err (.wrap e errRevokeDefaultPerms), .defaultPrivilege cr,
          (DataBaseExits o ctx dbName).2⟩
      | .ok dbEx =>
        if !dbEx then ⟨.ok (), .defaultPrivilege cr, (DataBaseExits o ctx dbName).2⟩
        else
          match deleteQuery cr.forProvider with
          | .nilDeref f =>
            ⟨.nilDeref f, .defaultPrivilege cr, (DataBaseExits o ctx dbName).2⟩
          | .err e =>
            ⟨.err (.wrap e errRevokeDefaultPermsQuery), .defaultPrivilege cr,
              (DataBaseExits o ctx dbName).2⟩
          | .ok queries =>
            match o.execTxRes queries with
            | some e =>
              ⟨.err (.wrap e errRevokeDefaultPerms), .defaultPrivilege cr,
                (DataBaseExits o ctx dbName).2 ++ [.execTx ctx queries]⟩
            | none =>
              ⟨.ok (), .defaultPrivilege cr,
                (DataBaseExits o ctx dbName).2 ++ [.execTx ctx queries]⟩

/- Concrete fixtures used by witnesses and counterexamples. -/

/-- The spec's scenario object: role `r`, owner `o`, schema `s`,
database `d`, privileges `[ALL]`. -/
def pFull : DefaultPrivilegeParameters :=
  ⟨some ["ALL"], some "r", some "o", some "s", some "d"⟩

/-- The scenario object with no status condition set. -/
def crFull : DefaultPrivilege := ⟨pFull, none⟩

/-- Scenario object with the owner field unset. -/
def pNoOwner : DefaultPrivilegeParameters :=
  ⟨some ["ALL"], some "r", none, some "s", some "d"⟩

/-- Scenario object with the database field unset. -/
def pNoDb : DefaultPrivilegeParameters :=
  ⟨some ["ALL"], some "r", some "o", some "s", none⟩

/-- Oracle whose role lookups succeed (OID 7), whose databases exist,
whose grant probe reports no existing grant, and whose transactions
succeed. -/
def oracleGrantFalse : DBOracle :=
  ⟨fun _ => .ok 7, fun _ => .ok true, fun _ => .ok false, fun _ => none⟩

/-- Like `oracleGrantFalse` but the grant probe reports an existing
grant. -/
def oracleGrantTrue : DBOracle :=
  ⟨fun _ => .ok 7, fun _ => .ok true, fun _ => .ok true, fun _ => none⟩

/-- Like `oracleGrantFalse` but the database-existence probe reports the
database gone. -/
def oracleDbGone : DBOracle :=
  ⟨fun _ => .ok 7, fun _ => .ok false, fun _ => .ok false, fun _ => none⟩

/-- The install sequence the code actually builds for the scenario
object (identifiers quoted, spacing as in the source format strings). -/
def installQueriesScenario : List Query :=
  [⟨"SET ROLE \"o\" ", []⟩,
   ⟨"ALTER DEFAULT PRIVILEGES FOR ROLE \"o\" IN SCHEMA \"s\" REVOKE ALL ON TABLES FROM \"r\"", []⟩,
   ⟨"ALTER DEFAULT PRIVILEGES FOR ROLE \"o\" IN SCHEMA \"s\"  GRANT  ALL ON TABLES TO \"r\"", []⟩]

/-- A database call uses the verb's context iff: calls on the
provider-default `db` handle carry `context.Background()` (that is what
`GetRoleOID` and `DataBaseExits` pass), and calls on the target
`dbDatabase` handle carry the verb's context. -/
def usesVerbCtx (ctx : Ctx) : DBCall → Prop
  | .scanDb c _ => c = Ctx.background
  | .scanDbDatabase c _ => c = ctx
  | .execTx c _ => c = ctx

lemma observe_calls_ctx (o : DBOracle) (ctx : Ctx) (mg : Managed) :
    ∀ c ∈ (Observe o ctx mg).calls, usesVerbCtx ctx c := by
  cases mg with
  | otherKind s => intro c hc; simp [Observe] at hc
  | defaultPrivilege cr =>
    cases hr : cr.forProvider.role with
    | none => intro c hc; simp [Observe, hr] at hc
    | some role =>
      cases h1 : o.scanOid (getRoleOIDQuery role) with
      | error e =>
        intro c hc
        simp [Observe, GetRoleOID, Except.mapError, hr, h1] at hc
        subst hc; rfl
      | ok rid =>
        cases ho : cr.forProvider.owner with
        | none =>
          intro c hc
          simp [Observe, GetRoleOID, Except.mapError, hr, h1, ho] at hc
          subst hc; rfl
        | some owner =>
          cases h2 : o.scanOid (getRoleOIDQuery owner) with
          | error e =>
            intro c hc
            simp [Observe, GetRoleOID, Except.mapError, hr, h1, ho, h2] at hc
            obtain rfl | rfl := hc <;> rfl
          | ok oid =>
            cases h3 : o.scanGrantBool (selectQuery oid rid) with
            | error e =>
              intro c hc
              simp [Observe, GetRoleOID, Except.mapError, hr, h1, ho, h2, h3] at hc
              obtain rfl | rfl | rfl := hc <;> rfl
            | ok b =>
              intro c hc
              cases b <;>
                simp [Observe, GetRoleOID, Except.mapError, hr, h1, ho, h2, h3] at hc <;>
                obtain rfl | rfl | rfl := hc <;> rfl

lemma create_calls_ctx (o : DBOracle) (ctx : Ctx) (mg : Managed) :
    ∀ c ∈ (Create o ctx mg).calls, usesVerbCtx ctx c := by
  cases mg with
  | otherKind s => intro c hc; simp [Create] at hc
  | defaultPrivilege cr =>
    cases hq : createQueries (setReady cr .creating).forProvider with
    | error e => intro c hc; simp [Create, hq] at hc
    | ok qs =>
      cases he : o.execTxRes qs with
      | none => intro c hc; simp [Create, hq, he] at hc; subst hc; rfl
      | some e => intro c hc; simp [Create, hq, he] at hc; subst hc; rfl

lemma delete_calls_ctx (o : DBOracle) (ctx : Ctx) (mg : Managed) :
    ∀ c ∈ (Delete o ctx mg).calls, usesVerbCtx ctx c := by
  cases mg with
  | otherKind s => intro c hc; simp [Delete] at hc
  | defaultPrivilege cr =>
    cases hd : (setReady cr .deleting).forProvider.database with
    | none => intro c hc; simp [Delete, hd] at hc
    | some dbName =>
      cases h1 : o.scanDbBool (databaseExistsQuery dbName) with
      | error e =>
        intro c hc
        simp [Delete, DataBaseExits, Except.mapError, hd, h1] at hc
        subst hc; rfl
      | ok dbEx =>
        cases dbEx with
        | false =>
          intro c hc
          simp [Delete, DataBaseExits, Except.mapError, hd, h1] at hc
          subst hc; rfl
        | true =>
          cases hq : deleteQuery (setReady cr .deleting).forProvider with
          | nilDeref f =>
            intro c hc
            simp [Delete, DataBaseExits, Except.mapError, hd, h1, hq] at hc
            subst hc; rfl
          | err e =>
            intro c hc
            simp [Delete, DataBaseExits, Except.mapError, hd, h1, hq] at hc
            subst hc; rfl
          | ok qs =>
            cases he : o.execTxRes qs with
            | none =>
              intro c hc
              simp [Delete, DataBaseExits, Except.mapError, hd, h1, hq, he] at hc
              obtain rfl | rfl := hc <;> rfl
            | some e =>
              intro c hc
              simp [Delete, DataBaseExits, Except.mapError, hd, h1, hq, he] at hc
              obtain rfl | rfl := hc <;> rfl

/-- C1, counterexample: for the scenario object the code does not build
the unquoted statement list the claim states; `pq.QuoteIdentifier` wraps
every identifier in double quotes and the format strings carry extra
spacing, so the built list differs from the claimed one. -/
theorem c1_counterexample :
    createQueries pFull ≠
      Except.ok
        [⟨"SET ROLE o", []⟩,
         ⟨"ALTER DEFAULT PRIVILEGES FOR ROLE o IN SCHEMA s REVOKE ALL ON TABLES FROM r", []⟩,
         ⟨"ALTER DEFAULT PRIVILEGES FOR ROLE o IN SCHEMA s GRANT ALL ON TABLES TO r", []⟩] := by
  decide

/-- C1, amended: for the scenario object `{role: r, owner: o, schema: s,
database: d, privileges: [ALL]}`, `createQueries` builds exactly the
three-statement list `SET ROLE "o" `, `ALTER DEFAULT PRIVILEGES FOR ROLE
"o" IN SCHEMA "s" REVOKE ALL ON TABLES FROM "r"`, `ALTER DEFAULT
PRIVILEGES FOR ROLE "o" IN SCHEMA "s"  GRANT  ALL ON TABLES TO "r"` (with
identifiers double-quoted and the source's spacing), in that order, and
Create passes exactly that list to the executor as one transactional
`ExecTx` call. -/
theorem c1_create_install_sequence (o : DBOracle) (ctx : Ctx) :
    createQueries pFull = .ok installQueriesScenario ∧
    (Create o ctx (.defaultPrivilege crFull)).calls = [.execTx ctx installQueriesScenario] := by
  refine ⟨by decide, ?_⟩
  have hq : createQueries (setReady crFull .creating).forProvider = .ok installQueriesScenario := by
    decide
  cases he : o.execTxRes installQueriesScenario <;> simp [Create, hq, he]

/-- C2: the claim is wrong about Delete's owner validation: `deleteQuery`
checks role and schema but dereferences `gp.Owner` with no nil check, so
Delete on an object with role and schema set but owner absent panics with
a nil-pointer dereference instead of failing with the owner validation
error.  (Create does validate all four fields, and Delete does not
require privileges.) -/
theorem c2_delete_nil_owner_panics :
    deleteQuery pNoOwner = .nilDeref "owner" ∧
    (Delete oracleGrantFalse (Ctx.caller 0) (.defaultPrivilege ⟨pNoOwner, none⟩)).res =
      .nilDeref "owner" := by
  exact ⟨rfl, rfl⟩

/-- C3: for an object of the right kind whose role and owner OIDs both
resolve, Observe maps the grant probe's boolean to the result: false
gives exists=false with no error and the object untouched; true sets the
Available condition and gives exists=true, upToDate=true,
lateInitialized=false. -/
theorem c3_observe_existence_mapping (o : DBOracle) (ctx : Ctx) (cr : DefaultPrivilege)
    (r ow : String) (rid oid : Int)
    (hr : cr.forProvider.role = some r)
    (ho : cr.forProvider.owner = some ow)
    (hrid : o.scanOid (getRoleOIDQuery r) = .ok rid)
    (hoid : o.scanOid (getRoleOIDQuery ow) = .ok oid) :
    (o.scanGrantBool (selectQuery oid rid) = .ok false →
      Observe o ctx (.defaultPrivilege cr) =
        ⟨.ok ⟨false, false, false⟩, .defaultPrivilege cr,
          [.scanDb .background (getRoleOIDQuery r), .scanDb .background (getRoleOIDQuery ow),
           .scanDbDatabase ctx (selectQuery oid rid)]⟩) ∧
    (o.scanGrantBool (selectQuery oid rid) = .ok true →
      Observe o ctx (.defaultPrivilege cr) =
        ⟨.ok ⟨true, true, false⟩, .defaultPrivilege (setReady cr .available),
          [.scanDb .background (getRoleOIDQuery r), .scanDb .background (getRoleOIDQuery ow),
           .scanDbDatabase ctx (selectQuery oid rid)]⟩) := by
  constructor <;> intro hg <;>
    simp [Observe, GetRoleOID, Except.mapError, hr, ho, hrid, hoid, hg]

/-- Witness for C3 at the scenario object with a grant-reporting
oracle. -/
theorem c3_observe_existence_mapping_witness :
    Observe oracleGrantTrue (Ctx.caller 0) (.defaultPrivilege crFull) =
      ⟨.ok ⟨true, true, false⟩, .defaultPrivilege (setReady crFull .available),
        [.scanDb .background (getRoleOIDQuery "r"), .scanDb .background (getRoleOIDQuery "o"),
         .scanDbDatabase (Ctx.caller 0) (selectQuery 7 7)]⟩ :=
  (c3_observe_existence_mapping oracleGrantTrue (Ctx.caller 0) crFull "r" "o" 7 7
    rfl rfl rfl rfl).2 rfl

/-- C4: when the database-existence probe succeeds and reports the
declared database gone, Delete returns nil immediately and the only
database call made is the probe itself; the transactional executor is
never invoked. -/
theorem c4_delete_short_circuit (o : DBOracle) (ctx : Ctx) (cr : DefaultPrivilege) (d : String)
    (hd : cr.forProvider.database = some d)
    (hex : o.scanDbBool (databaseExistsQuery d) = .ok false) :
    (Delete o ctx (.defaultPrivilege cr)).res = .ok () ∧
    (Delete o ctx (.defaultPrivilege cr)).calls = [.scanDb .background (databaseExistsQuery d)] := by
  have hd' : (setReady cr .deleting).forProvider.database = some d := hd
  constructor <;> simp [Delete, DataBaseExits, Except.mapError, hd', hex]

/-- Witness for C4 at the scenario object with a database-gone
oracle. -/
theorem c4_delete_short_circuit_witness :
    (Delete oracleDbGone (Ctx.caller 0) (.defaultPrivilege crFull)).res = .ok () ∧
    (Delete oracleDbGone (Ctx.caller 0) (.defaultPrivilege crFull)).calls =
      [.scanDb .background (databaseExistsQuery "d")] :=
  c4_delete_short_circuit oracleDbGone (Ctx.caller 0) crFull "d" rfl rfl

/-- C5, counterexample: Update performs no kind check at all: on an input
that is not a DefaultPrivilege it returns success, not the wrong-kind
error the claim states. -/
theorem c5_counterexample :
    (Update (Ctx.caller 0) (.otherKind "not-a-default-privilege")).res = .ok ⟨⟩ ∧
    (Update (Ctx.caller 0) (.otherKind "not-a-default-privilege")).res ≠
      .err (.msg errNot) := by
  exact ⟨rfl, by decide⟩

/-- C5, amended: Observe, Create and Delete each fail immediately with
the typed wrong-kind error (and do nothing else) when given an input
that is not the expected declared-object kind; Update accepts any input
and succeeds without a kind check. -/
theorem c5_wrong_kind_guard (o : DBOracle) (ctx : Ctx) (s : String) (mg : Managed) :
    Observe o ctx (.otherKind s) = ⟨.err (.msg errNot), .otherKind s, []⟩ ∧
    Create o ctx (.otherKind s) = ⟨.err (.msg errNot), .otherKind s, []⟩ ∧
    Delete o ctx (.otherKind s) = ⟨.err (.msg errNot), .otherKind s, []⟩ ∧
    Update ctx mg = ⟨.ok ⟨⟩, mg, []⟩ :=
  ⟨rfl, rfl, rfl, rfl⟩

set_option maxRecDepth 8192 in
/-- C6: the grant-existence query takes no schema argument (its
parameters are exactly the role and owner OIDs), its text filters the
namespace to the fixed name `public`, and Observe's result and call list
are identical for two declared objects that differ only in their schema
field. -/
theorem c6_observe_schema_independent (o : DBOracle) (ctx : Ctx)
    (priv : Option (List String)) (role own db sch1 sch2 : Option String)
    (rc : Option Condition) :
    (∀ a b : Int, (selectQuery a b).parameters = [.int b, .int a]) ∧
    List.IsInfix ("nspname = " ++ sq ++ "public" ++ sq).data selectQueryString.data ∧
    (Observe o ctx (.defaultPrivilege ⟨⟨priv, role, own, sch1, db⟩, rc⟩)).res =
      (Observe o ctx (.defaultPrivilege ⟨⟨priv, role, own, sch2, db⟩, rc⟩)).res ∧
    (Observe o ctx (.defaultPrivilege ⟨⟨priv, role, own, sch1, db⟩, rc⟩)).calls =
      (Observe o ctx (.defaultPrivilege ⟨⟨priv, role, own, sch2, db⟩, rc⟩)).calls := by
  refine ⟨fun a b => rfl, by decide, ?_, ?_⟩ <;>
  · cases role with
    | none => rfl
    | some r =>
      cases h1 : o.scanOid (getRoleOIDQuery r) with
      | error e => simp [Observe, GetRoleOID, Except.mapError, h1]
      | ok rid =>
        cases own with
        | none => simp [Observe, GetRoleOID, Except.mapError, h1]
        | some ow =>
          cases h2 : o.scanOid (getRoleOIDQuery ow) with
          | error e => simp [Observe, GetRoleOID, Except.mapError, h1, h2]
          | ok oid =>
            cases h3 : o.scanGrantBool (selectQuery oid rid) with
            | error e => simp [Observe, GetRoleOID, Except.mapError, h1, h2, h3]
            | ok b => cases b <;> simp [Observe, GetRoleOID, Except.mapError, h1, h2, h3]

/-- C7: the claim is wrong that Observe validates owner before querying:
on an object of the right kind with role set but owner absent, Observe
first issues the role-OID query and then dereferences the nil owner
pointer, panicking instead of returning the owner validation error. -/
theorem c7_observe_nil_owner_panics :
    Observe oracleGrantFalse (Ctx.caller 0) (.defaultPrivilege ⟨pNoOwner, none⟩) =
      ⟨.nilDeref "owner", .defaultPrivilege ⟨pNoOwner, none⟩,
        [.scanDb .background (getRoleOIDQuery "r")]⟩ :=
  rfl

/-- C8: the claim is wrong that every verb is well-defined when database
is unset: Delete dereferences `cr.Spec.ForProvider.Database` with no nil
check before the existence probe, so on an object whose database field
is absent it panics before issuing any database call. -/
theorem c8_delete_nil_database_panics :
    Delete oracleGrantFalse (Ctx.caller 0) (.defaultPrivilege ⟨pNoDb, none⟩) =
      ⟨.nilDeref "database", .defaultPrivilege ⟨pNoDb, some .deleting⟩, []⟩ :=
  rfl

/-- C9: Update is an unconditional no-op: for every context and every
input it returns the empty update result with a nil error, issues no
database call, and returns the managed resource unchanged. -/
theorem c9_update_noop (ctx : Ctx) (mg : Managed) :
    Update ctx mg = ⟨.ok ⟨⟩, mg, []⟩ :=
  rfl

/-- C10, counterexample: not every database call carries the verb's
context: Observe invoked with a caller context issues its role-OID
lookups with `context.Background()`. -/
theorem c10_counterexample :
    ¬ ∀ c ∈ (Observe oracleGrantFalse (Ctx.caller 1) (.defaultPrivilege crFull)).calls,
        callCtxOf c = Ctx.caller 1 := by
  decide

/-- C10, amended: the grant-existence probe and the transactional
`ExecTx` calls carry the verb's context, but every call on the
provider-default handle (the role-OID lookups of Observe and the
database-existence probe of Delete) carries a fresh
`context.Background()` instead, so cancellation of the verb's context
does not reach those calls. -/
theorem c10_call_contexts (o : DBOracle) (ctx : Ctx) (mg : Managed) :
    (∀ c ∈ (Observe o ctx mg).calls, usesVerbCtx ctx c) ∧
    (∀ c ∈ (Create o ctx mg).calls, usesVerbCtx ctx c) ∧
    (∀ c ∈ (Delete o ctx mg).calls, usesVerbCtx ctx c) :=
  ⟨observe_calls_ctx o ctx mg, create_calls_ctx o ctx mg, delete_calls_ctx o ctx mg⟩

/-- Witness for C10's amended theorem: Create's single transactional
call for the scenario object carries the caller's context. -/
theorem c10_call_contexts_witness :
    usesVerbCtx (Ctx.caller 1) (DBCall.execTx (Ctx.caller 1) installQueriesScenario) :=
  (c10_call_contexts oracleGrantFalse (Ctx.caller 1) (.defaultPrivilege crFull)).2.1
    (DBCall.execTx (Ctx.caller 1) installQueriesScenario) (by decide)

end ProviderSQL
